import Mathlib

/-!
Shallow embedding of the housewarming event-coordination app
(src/App.tsx, src/constants.ts, src/types.ts): the identity-keyed
reconciliation core — gift reservation handlers, attendance upsert,
validation schemas, phone masking, and cold-start hydration — together
with theorems settling the specification claims.
-/

namespace Housewarming

/-- Interface `User` from src/types.ts. -/
structure User where
  name : String
  phone : String
  isAdmin : Bool
deriving Repr, DecidableEq

/-- Interface `Gift` from src/types.ts. Optional TS fields become `Option`. -/
structure Gift where
  id : String
  name : String
  description : String
  imageUrl : String
  link : Option String
  priceEstimate : Option Int
  reservedBy : Option String
  isReserved : Bool
deriving Repr, DecidableEq

/-- Interface `Presenca` from src/types.ts. JS numbers are modelled as `Int`. -/
structure Presenca where
  name : String
  phone : String
  attending : Bool
  adultsCount : Int
  childrenCount : Int
  guestsCount : Int
  date : String
deriving Repr, DecidableEq

/-- Interface `EventConfig` from src/types.ts. -/
structure EventConfig where
  eventDate : String
  eventTime : String
  location : String
  locationLink : Option String
  rsvpDeadline : String
  googleCalendarLink : String
deriving Repr, DecidableEq

/-- Constant `INITIAL_GIFTS` from src/constants.ts (4 seed items). -/
def INITIAL_GIFTS : List Gift :=
  [ { id := "1"
    , name := "Jogo de Jantar 20 Peças"
    , description := "Conjunto de pratos de porcelana branca Oxford para ocasiões especiais."
    , imageUrl := "https://images.unsplash.com/photo-1574362848149-11496d93a7c7?auto=format&fit=crop&q=80&w=600"
    , link := some "https://www.amazon.com.br/s?k=jogo+de+jantar+porcelana"
    , priceEstimate := none
    , reservedBy := none
    , isReserved := false }
  , { id := "2"
    , name := "Fritadeira Elétrica Airfryer"
    , description := "Airfryer potente (4L) para nossas receitas saudáveis de final de semana."
    , imageUrl := "https://images.unsplash.com/photo-1626071494702-420443e2ee43?auto=format&fit=crop&q=80&w=600"
    , link := some "https://www.magazineluiza.com.br/busca/airfryer/"
    , priceEstimate := none
    , reservedBy := none
    , isReserved := false }
  , { id := "3"
    , name := "Jogo de Toalhas Gigante"
    , description := "Kit banho e rosto em algodão egípcio, cor off-white."
    , imageUrl := "https://images.unsplash.com/photo-1584622650111-993a426fbf0a?auto=format&fit=crop&q=80&w=600"
    , link := some "https://www.tokstok.com.br/banho/jogos-de-toalha"
    , priceEstimate := none
    , reservedBy := none
    , isReserved := false }
  , { id := "4"
    , name := "Aspirador de Pó Robô"
    , description := "Para nos ajudar a manter o novo lar sempre impecável."
    , imageUrl := "https://images.unsplash.com/photo-1518314916381-77a37c2a49ae?auto=format&fit=crop&q=80&w=600"
    , link := some "https://www.mercadolivre.com.br/aspirador-robo"
    , priceEstimate := none
    , reservedBy := none
    , isReserved := false } ]

/-- Constant `DEFAULT_CONFIG` from src/constants.ts. -/
def DEFAULT_CONFIG : EventConfig :=
  { eventDate := "2024-12-15"
  , eventTime := "18:00"
  , location := "Rua das Flores, 123 - Apt 42, São Paulo"
  , locationLink := some "https://maps.app.goo.gl/3fX3B7F1V8C2D5E6"
  , rsvpDeadline := "2024-12-01"
  , googleCalendarLink := "https://calendar.google.com/calendar/render?action=TEMPLATE&text=Chá+de+Casa+Nova+-+Nosso+Novo+Lar&dates=20241215T210000Z/20241216T010000Z&details=Esperamos+vocês+para+celebrar+nossa+conquista!&location=Rua+das+Flores,+123+-+Apt+42,+São+Paulo" }

/-- Handler `handleReserve` from src/App.tsx (lines 471-475):
`if (!user) return;` then map over the catalog setting
`isReserved: true, reservedBy: user.name` on the matching id. -/
def handleReserve (user : Option User) (id : String) (gifts : List Gift) : List Gift :=
  match user with
  | none => gifts
  | some u =>
      gifts.map (fun g =>
        if g.id == id then { g with isReserved := true, reservedBy := some u.name } else g)

/-- Handler `handleCancelReserve` from src/App.tsx (lines 477-480): map over the
catalog setting `isReserved: false, reservedBy: undefined` on the matching id. -/
def handleCancelReserve (id : String) (gifts : List Gift) : List Gift :=
  gifts.map (fun g =>
    if g.id == id then { g with isReserved := false, reservedBy := none } else g)

/-- Admin gift form payload (fields of `giftSchema`, src/App.tsx lines 42-47);
empty string models an empty/absent optional text field, as in the form. -/
structure GiftForm where
  name : String
  description : String
  imageUrl : String
  link : String
deriving Repr, DecidableEq

/-- JS `a || b` on strings: empty string is falsy. -/
def jsOrS (a b : String) : String := if a == "" then b else a

/-- Handler `onAddGift` from src/App.tsx (lines 482-496). `uploadedImage` is the
data-URL state (empty = null) and `nowStr` stands for `Date.now().toString()`. -/
def onAddGift (data : GiftForm) (uploadedImage : String) (nowStr : String)
    (gifts : List Gift) : List Gift :=
  gifts ++
    [ { id := nowStr
      , name := data.name
      , description := data.description
      , imageUrl := jsOrS uploadedImage (jsOrS data.imageUrl
          ("https://picsum.photos/seed/" ++ nowStr ++ "/600/400"))
      , link := some data.link
      , priceEstimate := none
      , reservedBy := none
      , isReserved := false } ]

/-- Handler `handleRemoveGift` from src/App.tsx (lines 510-513). -/
def handleRemoveGift (id : String) (gifts : List Gift) : List Gift :=
  gifts.filter (fun g => !(g.id == id))

/-- One user-triggered catalog mutation, with its environment-supplied data
(acting user, time-derived id) as constructor arguments. -/
inductive GiftOp where
  | reserve (user : Option User) (id : String)
  | cancel (id : String)
  | add (data : GiftForm) (uploadedImage : String) (nowStr : String)
  | remove (id : String)
deriving Repr, DecidableEq

/-- Apply one catalog operation (dispatch to the src/App.tsx handlers). -/
def applyGiftOp (gifts : List Gift) (op : GiftOp) : List Gift :=
  match op with
  | .reserve user id => handleReserve user id gifts
  | .cancel id => handleCancelReserve id gifts
  | .add data img nowStr => onAddGift data img nowStr gifts
  | .remove id => handleRemoveGift id gifts

/-- Apply a sequence of catalog operations in order. -/
def applyGiftOps (ops : List GiftOp) (gifts : List Gift) : List Gift :=
  ops.foldl applyGiftOp gifts

/-- Field `reservedBy` of the first catalog item with the given id. -/
def reservedByOf (gifts : List Gift) (id : String) : Option String :=
  match gifts.find? (fun g => g.id == id) with
  | some g => g.reservedBy
  | none => none

/-- Field `isReserved` of the first catalog item with the given id. -/
def isReservedOf (gifts : List Gift) (id : String) : Option Bool :=
  match gifts.find? (fun g => g.id == id) with
  | some g => some g.isReserved
  | none => none

/-- One attendance submission: the acting user (the code early-returns when
none is present, so a recorded operation always carries one), the validated
form payload, and the `new Date().toISOString()` timestamp as a parameter. -/
structure SubmitOp where
  user : User
  attending : Bool
  adults : Int
  children : Int
  date : String
deriving Repr, DecidableEq

/-- The `newPresenca` record built inside `onConfirmReservaPresenca`
(src/App.tsx lines 520-528). `Number(x) || 0` is the identity on the
already-numeric form values modelled here. -/
def mkPresenca (op : SubmitOp) : Presenca :=
  { name := op.user.name
  , phone := op.user.phone
  , attending := op.attending
  , adultsCount := op.adults
  , childrenCount := op.children
  , guestsCount := op.adults + op.children
  , date := op.date }

/-- Handler `onConfirmReservaPresenca` from src/App.tsx (lines 515-543), state
transition part: find the record with the user's phone (`findIndex`); if
found replace it at its index, else append. -/
def submitPresenca (op : SubmitOp) (cs : List Presenca) : List Presenca :=
  let newP := mkPresenca op
  let i := cs.findIdx (fun c => c.phone == op.user.phone)
  if i < cs.length then cs.set i newP else cs ++ [newP]

/-- Apply a sequence of attendance submissions in order. -/
def applySubmits (ops : List SubmitOp) (cs : List Presenca) : List Presenca :=
  ops.foldl (fun s op => submitPresenca op s) cs

/-- The record set is uniquely keyed by phone (pairwise distinct keys). -/
def UniqueKeyed (cs : List Presenca) : Prop :=
  cs.Pairwise (fun a b => a.phone ≠ b.phone)

instance : DecidablePred UniqueKeyed := fun cs =>
  inferInstanceAs (Decidable (cs.Pairwise _))

/-- The last submission in `ops` whose acting user has phone `c`
(specification-side characterization of "last successful submit for c"). -/
def lastSubmitFor (c : String) : List SubmitOp → Option SubmitOp
  | [] => none
  | op :: ops =>
      match lastSubmitFor c ops with
      | some o => some o
      | none => if op.user.phone == c then some op else none

/-- Schema `presencaSchema` from src/App.tsx (lines 27-31): zod validates
`adults` in [1,10] and `children` in [0,10] on every submission; the
`attending` field is only required to be a boolean. -/
structure PresencaForm where
  attending : Bool
  adults : Int
  children : Int
deriving Repr, DecidableEq

/-- Whether `presencaSchema` accepts the payload. -/
def presencaValidate (d : PresencaForm) : Bool :=
  (1 ≤ d.adults) && (d.adults ≤ 10) && (0 ≤ d.children) && (d.children ≤ 10)

/-- Metric `totalPessoas` from src/App.tsx (line 581). -/
def totalPessoas (cs : List Presenca) : Int :=
  cs.foldl (fun acc c => if c.attending then acc + c.guestsCount else acc) 0

/-- Metric `totalAdultos` from src/App.tsx (line 582). -/
def totalAdultos (cs : List Presenca) : Int :=
  cs.foldl (fun acc c => if c.attending then acc + c.adultsCount else acc) 0

/-- Metric `totalCriancas` from src/App.tsx (line 583). -/
def totalCriancas (cs : List Presenca) : Int :=
  cs.foldl (fun acc c => if c.attending then acc + c.childrenCount else acc) 0

/-- Metric `totalNaoVao` from src/App.tsx (line 586). -/
def totalNaoVao (cs : List Presenca) : Nat :=
  (cs.filter (fun c => !c.attending)).length

/-- Mask test `phoneRegex` from src/App.tsx (line 20):
`^\(\d{2}\) \d{5}-\d{4}$` as a decision procedure on the 15-character shape. -/
def phoneRegexTest (s : String) : Bool :=
  match s.data with
  | ['(', a, b, ')', ' ', c, d, e, f, g, '-', h, i, j, k] =>
      a.isDigit && b.isDigit && c.isDigit && d.isDigit && e.isDigit &&
      f.isDigit && g.isDigit && h.isDigit && i.isDigit && j.isDigit && k.isDigit
  | _ => false

/-- Identity resolution of `UserAuthModal` (src/App.tsx lines 337-367):
when the typed phone matches the mask, the effect looks the phone up in the
stored attendance records; on a match it forces the (disabled) name field to
the stored name, so the submitted identity carries the stored name; otherwise
the supplied name is used. `isAdmin` is always false on this path. -/
def resolveIdentity (records : List Presenca) (suppliedName phone : String) : User :=
  if phoneRegexTest phone then
    match records.find? (fun r => r.phone == phone) with
    | some r => { name := r.name, phone := phone, isAdmin := false }
    | none => { name := suppliedName, phone := phone, isAdmin := false }
  else { name := suppliedName, phone := phone, isAdmin := false }

/-- Core of `maskPhone` from src/App.tsx (lines 49-58), on the character list:
strip non-digits, then format by digit count (`slice(0,2)`, `slice(2,7)`,
`slice(7,11)` are `take 2`, `drop 2 |>.take 5`, `drop 7 |>.take 4`). -/
def maskCore (l : List Char) : List Char :=
  if l = [] then []
  else
    let ds := l.filter Char.isDigit
    if ds.length < 3 then ds
    else if ds.length < 7 then
      '(' :: ds.take 2 ++ ')' :: ' ' :: ds.drop 2
    else
      '(' :: ds.take 2 ++ ')' :: ' ' :: (ds.drop 2).take 5 ++ '-' :: (ds.drop 7).take 4

/-- Helper `maskPhone` from src/App.tsx (lines 49-58); the `if (!value)` early
return coincides with the empty-list branch of `maskCore`. -/
def maskPhone (s : String) : String := String.mk (maskCore s.data)

/-- Untyped JS runtime value produced by `JSON.parse` (and held in React
state after hydration); numbers keep their literal text, which no claim
inspects. -/
inductive Json where
  | null
  | bool (b : Bool)
  | num (lit : String)
  | str (s : String)
  | arr (elems : List Json)
  | obj (fields : List (String × Json))
deriving Repr

/-- Opening curly brace character. -/
def lbrace : Char := Char.ofNat 123

/-- Closing curly brace character. -/
def rbrace : Char := Char.ofNat 125

/-- JSON insignificant whitespace (space, tab, line feed, carriage return). -/
def isJsonWs (c : Char) : Bool :=
  match c.toNat with
  | 32 => true
  | 9 => true
  | 10 => true
  | 13 => true
  | _ => false

/-- Drop leading JSON whitespace. -/
def skipWs : List Char → List Char
  | [] => []
  | c :: cs => if isJsonWs c then skipWs cs else c :: cs

/-- Value of a hexadecimal digit. -/
def hexVal (c : Char) : Option Nat :=
  let n := c.toNat
  if n < 48 then none
  else if n ≤ 57 then some (n - 48)
  else if 65 ≤ n ∧ n ≤ 70 then some (n - 55)
  else if 97 ≤ n ∧ n ≤ 102 then some (n - 87)
  else none

/-- Resolution of a single-character JSON string escape: quote, backslash
and slash map to themselves, the letters b f n r t to their control
characters, anything else is refused. -/
def escapeChar (c : Char) : Option Char :=
  match c with
  | '"' => some c
  | '\\' => some c
  | '/' => some c
  | 'b' => some (Char.ofNat 8)
  | 'f' => some (Char.ofNat 12)
  | 'n' => some (Char.ofNat 10)
  | 'r' => some (Char.ofNat 13)
  | 't' => some (Char.ofNat 9)
  | _ => none

/-- Parse the body of a JSON string after the opening quote, up to and
including the closing quote; returns the content and the remaining input. -/
def parseStringBody : List Char → Option (List Char × List Char)
  | [] => none
  | '"' :: rest => some ([], rest)
  | '\\' :: 'u' :: h1 :: h2 :: h3 :: h4 :: rest =>
      match hexVal h1, hexVal h2, hexVal h3, hexVal h4 with
      | some a, some b, some c, some d =>
          match parseStringBody rest with
          | some (s, r) => some (Char.ofNat (4096 * a + 256 * b + 16 * c + d) :: s, r)
          | none => none
      | _, _, _, _ => none
  | '\\' :: e :: rest =>
      match escapeChar e with
      | some c =>
          match parseStringBody rest with
          | some (s, r) => some (c :: s, r)
          | none => none
      | none => none
  | c :: rest =>
      if c.toNat < 32 then none
      else
        match parseStringBody rest with
        | some (s, r) => some (c :: s, r)
        | none => none

/-- Parse the integer part of a JSON number (no leading zeros). -/
def parseIntPart : List Char → Option (List Char × List Char)
  | '0' :: rest => some (['0'], rest)
  | c :: rest =>
      if c.isDigit then
        some (c :: rest.takeWhile Char.isDigit, rest.dropWhile Char.isDigit)
      else none
  | [] => none

/-- Parse an optional JSON fraction part. -/
def parseFracPart (cs : List Char) : Option (List Char × List Char) :=
  match cs with
  | '.' :: rest =>
      let ds := rest.takeWhile Char.isDigit
      if ds.isEmpty then none else some ('.' :: ds, rest.dropWhile Char.isDigit)
  | _ => some ([], cs)

/-- Parse an optional JSON exponent part. -/
def parseExpPart (cs : List Char) : Option (List Char × List Char) :=
  match cs with
  | e :: rest =>
      if e == 'e' || e == 'E' then
        let sr : List Char × List Char :=
          match rest with
          | '+' :: r => (['+'], r)
          | '-' :: r => (['-'], r)
          | r => ([], r)
        let ds := sr.2.takeWhile Char.isDigit
        if ds.isEmpty then none
        else some (e :: sr.1 ++ ds, sr.2.dropWhile Char.isDigit)
      else some ([], cs)
  | [] => some ([], [])

/-- Parse a complete JSON number literal. -/
def parseNumberLit (cs : List Char) : Option (List Char × List Char) :=
  let nr : List Char × List Char :=
    match cs with
    | '-' :: r => (['-'], r)
    | r => ([], r)
  match parseIntPart nr.2 with
  | none => none
  | some (ip, cs2) =>
      match parseFracPart cs2 with
      | none => none
      | some (fp, cs3) =>
          match parseExpPart cs3 with
          | none => none
          | some (ep, cs4) => some (nr.1 ++ ip ++ fp ++ ep, cs4)

mutual

/-- Parse one JSON value (fuel-bounded recursive descent). -/
def parseValue : Nat → List Char → Option (Json × List Char)
  | 0, _ => none
  | fuel + 1, cs =>
      match skipWs cs with
      | 'n' :: 'u' :: 'l' :: 'l' :: r => some (.null, r)
      | 't' :: 'r' :: 'u' :: 'e' :: r => some (.bool true, r)
      | 'f' :: 'a' :: 'l' :: 's' :: 'e' :: r => some (.bool false, r)
      | '"' :: r =>
          match parseStringBody r with
          | some (s, r2) => some (.str (String.mk s), r2)
          | none => none
      | '[' :: r =>
          match skipWs r with
          | ']' :: r2 => some (.arr [], r2)
          | r2 =>
              match parseElems fuel r2 with
              | some (es, r3) => some (.arr es, r3)
              | none => none
      | c :: r =>
          if c == lbrace then
            match skipWs r with
            | c2 :: r2 =>
                if c2 == rbrace then some (.obj [], r2)
                else
                  match parseMembers fuel (c2 :: r2) with
                  | some (fs, r3) => some (.obj fs, r3)
                  | none => none
            | [] => none
          else
            match parseNumberLit (c :: r) with
            | some (lit, r2) => some (.num (String.mk lit), r2)
            | none => none
      | [] => none

/-- Parse the comma-separated elements of a nonempty JSON array, up to and
including the closing bracket. -/
def parseElems : Nat → List Char → Option (List Json × List Char)
  | 0, _ => none
  | fuel + 1, cs =>
      match parseValue fuel cs with
      | none => none
      | some (v, r) =>
          match skipWs r with
          | ',' :: r2 =>
              match parseElems fuel r2 with
              | some (vs, r3) => some (v :: vs, r3)
              | none => none
          | ']' :: r2 => some ([v], r2)
          | _ => none

/-- Parse the members of a nonempty JSON object, up to and including the
closing brace. -/
def parseMembers : Nat → List Char → Option (List (String × Json) × List Char)
  | 0, _ => none
  | fuel + 1, cs =>
      match skipWs cs with
      | '"' :: r =>
          match parseStringBody r with
          | none => none
          | some (k, r2) =>
              match skipWs r2 with
              | ':' :: r3 =>
                  match parseValue fuel r3 with
                  | none => none
                  | some (v, r4) =>
                      match skipWs r4 with
                      | ',' :: r5 =>
                          match parseMembers fuel r5 with
                          | some (fs, r6) => some ((String.mk k, v) :: fs, r6)
                          | none => none
                      | c :: r5 =>
                          if c == rbrace then some ([(String.mk k, v)], r5) else none
                      | [] => none
              | _ => none
      | _ => none

end

/-- Model of `JSON.parse`: parse a complete document (value plus only trailing
whitespace); `Except.error` models the thrown `SyntaxError`. The fuel is
ample for the input length. -/
def jsonParse (s : String) : Except String Json :=
  match parseValue (4 * (s.data.length + 1)) s.data with
  | some (v, rest) =>
      if (skipWs rest).isEmpty then Except.ok v
      else Except.error "Unexpected non-whitespace character after JSON data"
  | none => Except.error "Unexpected token in JSON"

/-- The JS runtime value of a `Gift` object (fields present exactly when
the TS optional fields are). -/
def giftToJson (g : Gift) : Json :=
  Json.obj
    ([("id", Json.str g.id), ("name", Json.str g.name),
      ("description", Json.str g.description), ("imageUrl", Json.str g.imageUrl)]
     ++ (match g.link with | some l => [("link", Json.str l)] | none => [])
     ++ (match g.priceEstimate with
         | some n => [("priceEstimate", Json.num (toString n))]
         | none => [])
     ++ [("isReserved", Json.bool g.isReserved)]
     ++ (match g.reservedBy with | some r => [("reservedBy", Json.str r)] | none => []))

/-- The JS runtime value of an `EventConfig` object. -/
def configToJson (c : EventConfig) : Json :=
  Json.obj
    ([("eventDate", Json.str c.eventDate), ("eventTime", Json.str c.eventTime),
      ("location", Json.str c.location)]
     ++ (match c.locationLink with | some l => [("locationLink", Json.str l)] | none => [])
     ++ [("rsvpDeadline", Json.str c.rsvpDeadline),
         ("googleCalendarLink", Json.str c.googleCalendarLink)])

/-- Cold-start hydration of the gift catalog (src/App.tsx lines 441-442):
`setGifts(savedGifts ? JSON.parse(savedGifts) : INITIAL_GIFTS)`; an absent
(or empty, hence falsy) stored string falls back to the seed catalog, any
other stored string goes through `JSON.parse`, whose failure propagates. -/
def hydrateGifts : Option String → Except String Json
  | none => Except.ok (Json.arr (INITIAL_GIFTS.map giftToJson))
  | some s =>
      if s == "" then Except.ok (Json.arr (INITIAL_GIFTS.map giftToJson))
      else jsonParse s

/-- Cold-start hydration of attendance records (src/App.tsx lines 444-445):
fallback is the empty sequence. -/
def hydratePresencas : Option String → Except String Json
  | none => Except.ok (Json.arr [])
  | some s => if s == "" then Except.ok (Json.arr []) else jsonParse s

/-- Cold-start hydration of the event configuration (src/App.tsx lines
447-448): the state is initialized to `DEFAULT_CONFIG` and only overwritten
when a stored document is present. -/
def hydrateConfig : Option String → Except String Json
  | none => Except.ok (configToJson DEFAULT_CONFIG)
  | some s => if s == "" then Except.ok (configToJson DEFAULT_CONFIG) else jsonParse s

/-- Cold-start hydration of the admin capability (src/App.tsx lines
438-439): `if (savedAdmin === 'true') setIsAdmin(true)` over the initial
`false`. -/
def hydrateAdmin : Option String → Bool
  | none => false
  | some s => s == "true"

/-- Sample guest A for concrete scenarios. -/
def userA : User := { name := "Alice", phone := "(11) 91111-1111", isAdmin := false }

/-- Sample guest B for concrete scenarios. -/
def userB : User := { name := "Bob", phone := "(11) 92222-2222", isAdmin := false }

/-- Sample unreserved catalog item for concrete scenarios. -/
def sampleGift : Gift :=
  { id := "1", name := "Panela", description := "Panela de ferro fundido"
  , imageUrl := "", link := none, priceEstimate := none
  , reservedBy := none, isReserved := false }

/-- State of `sampleGift` after guest B claims it. -/
def sampleGiftB : Gift := { sampleGift with isReserved := true, reservedBy := some "Bob" }

/-- Sample identity of the recognized guest in the spec scenario. -/
def mariaUser : User :=
  { name := "Maria Clara", phone := "(11) 91234-5678", isAdmin := false }

/-- Stored attendance record of `mariaUser`. -/
def mariaRecord : Presenca :=
  mkPresenca
    { user := mariaUser, attending := true, adults := 2, children := 0
    , date := "2024-11-20T12:00:00.000Z" }

/-- The three-record aggregation scenario from the spec, built through the
submission constructor. -/
def exampleRecords : List Presenca :=
  [ mkPresenca { user := userA, attending := true, adults := 2, children := 1, date := "t1" }
  , mkPresenca { user := userB, attending := true, adults := 1, children := 0, date := "t2" }
  , mkPresenca { user := mariaUser, attending := false, adults := 1, children := 0, date := "t3" } ]

/-- Recursive view of the upsert performed by `submitPresenca`: replace the
first record whose phone is `key`, else append at the end. -/
def upsertRec (p : Presenca) (key : String) : List Presenca → List Presenca
  | [] => [p]
  | c :: cs => if c.phone == key then p :: cs else c :: upsertRec p key cs

/-- A concrete submission sequence: Alice, Bob, then Alice again. -/
def c2ops : List SubmitOp :=
  [ { user := userA, attending := true, adults := 2, children := 1, date := "t1" }
  , { user := userB, attending := true, adults := 1, children := 0, date := "t2" }
  , { user := userA, attending := false, adults := 1, children := 0, date := "t3" } ]

/-- The admin form payload of the spec's addItem scenario. -/
def liquidForm : GiftForm :=
  { name := "Liquidificador", description := "Liquidificador de alta potência"
  , imageUrl := "", link := "" }

/-- The item `onAddGift` appends for `liquidForm` with no uploaded image and
`Date.now().toString() = "99"`. -/
def addedGift : Gift :=
  { id := "99", name := "Liquidificador"
  , description := "Liquidificador de alta potência"
  , imageUrl := "https://picsum.photos/seed/99/600/400", link := some ""
  , priceEstimate := none, reservedBy := none, isReserved := false }

/-- A concrete catalog operation sequence exercising every constructor. -/
def opsC3 : List GiftOp :=
  [ GiftOp.reserve (some userA) "1", GiftOp.cancel "1"
  , GiftOp.remove "1", GiftOp.remove "2", GiftOp.remove "3", GiftOp.remove "4"
  , GiftOp.add liquidForm "" "99", GiftOp.reserve (some userB) "99" ]

/-- State of `addedGift` after guest B claims it (the final state under `opsC3`). -/
def addedGiftB : Gift := { addedGift with isReserved := true, reservedBy := some "Bob" }

/-! ## Helper lemmas -/

theorem mem_handleReserve (u : User) (i : String) (gifts : List Gift) :
    ∀ g ∈ handleReserve (some u) i gifts,
      g.id = i → g.isReserved = true ∧ g.reservedBy = some u.name := by
  intro g hg hid
  simp only [handleReserve] at hg
  rcases List.mem_map.mp hg with ⟨g1, _, rfl⟩
  by_cases h : g1.id == i
  · simp [h]
  · rw [if_neg h] at hid ⊢
    exact absurd (beq_iff_eq.mpr hid) h

theorem mem_handleCancelReserve (i : String) (gifts : List Gift) :
    ∀ g ∈ handleCancelReserve i gifts,
      g.id = i → g.isReserved = false ∧ g.reservedBy = none := by
  intro g hg hid
  simp only [handleCancelReserve] at hg
  rcases List.mem_map.mp hg with ⟨g1, _, rfl⟩
  by_cases h : g1.id == i
  · simp [h]
  · rw [if_neg h] at hid ⊢
    exact absurd (beq_iff_eq.mpr hid) h

theorem foldl_if_sum (f : Presenca → Int) (cs : List Presenca) :
    ∀ a : Int,
      cs.foldl (fun acc c => if c.attending then acc + f c else acc) a =
        a + ((cs.filter (fun c => c.attending)).map f).sum := by
  induction cs with
  | nil => intro a; simp
  | cons c cs ih =>
      intro a
      by_cases h : c.attending
      · simp [h, ih, add_assoc]
      · simp [h, ih]

theorem submitPresenca_eq_upsert (op : SubmitOp) (cs : List Presenca) :
    submitPresenca op cs = upsertRec (mkPresenca op) op.user.phone cs := by
  induction cs with
  | nil => rfl
  | cons c cs ih =>
      simp only [submitPresenca] at ih ⊢
      rw [List.findIdx_cons]
      unfold upsertRec
      by_cases h : (c.phone == op.user.phone) = true
      · rw [if_pos h, h, cond_true, if_pos (by simp), List.set_cons_zero]
      · have hb : (c.phone == op.user.phone) = false := by simpa using h
        rw [if_neg h, hb, cond_false]
        by_cases h2 : List.findIdx (fun x => x.phone == op.user.phone) cs < cs.length
        · rw [if_pos h2] at ih
          rw [if_pos (by simpa using Nat.succ_lt_succ h2), List.set_cons_succ, ih]
        · rw [if_neg h2] at ih
          rw [if_neg (by simpa using fun hlt => h2 (Nat.lt_of_succ_lt_succ hlt)),
            List.cons_append, ih]

theorem mem_upsertRec {p : Presenca} {key : String} {cs : List Presenca} :
    ∀ x ∈ upsertRec p key cs, x = p ∨ x ∈ cs := by
  induction cs with
  | nil =>
      intro x hx
      simp only [upsertRec, List.mem_cons, List.not_mem_nil, or_false] at hx
      exact Or.inl hx
  | cons c cs ih =>
      intro x hx
      simp only [upsertRec] at hx
      by_cases h : c.phone == key
      · rw [if_pos h] at hx
        rcases List.mem_cons.mp hx with h1 | h1
        · exact Or.inl h1
        · exact Or.inr (List.mem_cons_of_mem _ h1)
      · rw [if_neg h] at hx
        rcases List.mem_cons.mp hx with h1 | h1
        · exact Or.inr (h1 ▸ List.mem_cons_self c cs)
        · rcases ih x h1 with h2 | h2
          · exact Or.inl h2
          · exact Or.inr (List.mem_cons_of_mem _ h2)

theorem upsertRec_pairwise {p : Presenca} {key : String} {cs : List Presenca}
    (hp : p.phone = key) (h : UniqueKeyed cs) :
    UniqueKeyed (upsertRec p key cs) := by
  induction cs with
  | nil => simp [upsertRec, UniqueKeyed]
  | cons c cs ih =>
      rcases List.pairwise_cons.mp h with ⟨hc, hcs⟩
      unfold upsertRec
      by_cases hk : c.phone == key
      · rw [if_pos hk]
        refine List.Pairwise.cons ?_ hcs
        intro b hb
        rw [hp, ← beq_iff_eq.mp hk]
        exact hc b hb
      · rw [if_neg hk]
        refine List.Pairwise.cons ?_ (ih hcs)
        intro b hb
        rcases mem_upsertRec b hb with rfl | hbc
        · rw [hp]
          exact fun hcp => hk (beq_iff_eq.mpr hcp)
        · exact hc b hbc

theorem find?_upsertRec_self {p : Presenca} {key : String} (cs : List Presenca)
    (hp : p.phone = key) :
    (upsertRec p key cs).find? (fun r => r.phone == key) = some p := by
  induction cs with
  | nil => exact List.find?_cons_of_pos _ (beq_iff_eq.mpr hp)
  | cons c cs ih =>
      unfold upsertRec
      by_cases h : (c.phone == key) = true
      · rw [if_pos h]
        exact List.find?_cons_of_pos _ (beq_iff_eq.mpr hp)
      · rw [if_neg h]
        exact (@List.find?_cons_of_neg Presenca (fun r => r.phone == key) c
          (upsertRec p key cs) h).trans ih

theorem find?_upsertRec_other {p : Presenca} {key c' : String} (cs : List Presenca)
    (hp : p.phone = key) (hne : c' ≠ key) :
    (upsertRec p key cs).find? (fun r => r.phone == c') =
      cs.find? (fun r => r.phone == c') := by
  have hpne : ¬ ((p.phone == c') = true) := by
    rw [beq_iff_eq, hp]
    exact fun hh => hne hh.symm
  induction cs with
  | nil => exact @List.find?_cons_of_neg Presenca (fun r => r.phone == c') p [] hpne
  | cons c cs ih =>
      unfold upsertRec
      by_cases h : (c.phone == key) = true
      · rw [if_pos h]
        have hcne : ¬ ((c.phone == c') = true) := by
          rw [beq_iff_eq, beq_iff_eq.mp h]
          exact fun hh => hne hh.symm
        exact (@List.find?_cons_of_neg Presenca (fun r => r.phone == c') p cs hpne).trans
          (@List.find?_cons_of_neg Presenca (fun r => r.phone == c') c cs hcne).symm
      · rw [if_neg h]
        by_cases hcc : (c.phone == c') = true
        · exact (@List.find?_cons_of_pos Presenca (fun r => r.phone == c') c
            (upsertRec p key cs) hcc).trans
            (@List.find?_cons_of_pos Presenca (fun r => r.phone == c') c cs hcc).symm
        · exact (@List.find?_cons_of_neg Presenca (fun r => r.phone == c') c
            (upsertRec p key cs) hcc).trans
            (ih.trans (@List.find?_cons_of_neg Presenca (fun r => r.phone == c') c cs hcc).symm)

theorem uniqueKeyed_filter_le_one {cs : List Presenca} (h : UniqueKeyed cs)
    (c : String) : (cs.filter (fun r => r.phone == c)).length ≤ 1 := by
  induction cs with
  | nil => simp
  | cons x cs ih =>
      rcases List.pairwise_cons.mp h with ⟨hx, hcs⟩
      rw [List.filter_cons]
      by_cases hxc : (x.phone == c) = true
      · rw [if_pos hxc]
        have hnil : cs.filter (fun r => r.phone == c) = [] := by
          rw [List.filter_eq_nil_iff]
          intro b hb
          rw [beq_iff_eq, ← beq_iff_eq.mp hxc]
          exact fun hh => hx b hb hh.symm
        rw [hnil]
        simp
      · rw [if_neg hxc]
        exact ih hcs

theorem applySubmits_unique (ops : List SubmitOp) :
    ∀ {cs : List Presenca}, UniqueKeyed cs → UniqueKeyed (applySubmits ops cs) := by
  induction ops with
  | nil => exact fun h => h
  | cons op ops ih =>
      intro cs h
      have hu : UniqueKeyed (submitPresenca op cs) := by
        rw [submitPresenca_eq_upsert]
        exact upsertRec_pairwise rfl h
      exact ih hu

theorem applySubmits_find? (ops : List SubmitOp) :
    ∀ (cs : List Presenca) (c : String),
      (applySubmits ops cs).find? (fun r => r.phone == c) =
        match lastSubmitFor c ops with
        | some op => some (mkPresenca op)
        | none => cs.find? (fun r => r.phone == c) := by
  induction ops with
  | nil => intro cs c; rfl
  | cons op ops ih =>
      intro cs c
      have hstep : applySubmits (op :: ops) cs = applySubmits ops (submitPresenca op cs) := rfl
      rw [hstep, ih]
      cases hl : lastSubmitFor c ops with
      | some o => simp [lastSubmitFor, hl]
      | none =>
          simp only [lastSubmitFor, hl]
          by_cases hc : (op.user.phone == c) = true
          · rw [if_pos hc, submitPresenca_eq_upsert]
            have hce : c = op.user.phone := (beq_iff_eq.mp hc).symm
            subst hce
            exact find?_upsertRec_self cs rfl
          · rw [if_neg hc, submitPresenca_eq_upsert]
            exact find?_upsertRec_other cs rfl
              (fun hh => hc (beq_iff_eq.mpr hh.symm))

theorem giftInv_applyGiftOp {gifts : List Gift}
    (h : ∀ g ∈ gifts, g.isReserved = false ↔ g.reservedBy = none) (op : GiftOp) :
    ∀ g ∈ applyGiftOp gifts op, g.isReserved = false ↔ g.reservedBy = none := by
  cases op with
  | reserve user id =>
      cases user with
      | none => exact h
      | some u =>
          intro g hg
          simp only [applyGiftOp, handleReserve] at hg
          rcases List.mem_map.mp hg with ⟨g1, hg1, rfl⟩
          by_cases hid : (g1.id == id) = true
          · simp [hid]
          · simp only [if_neg hid]
            exact h g1 hg1
  | cancel id =>
      intro g hg
      simp only [applyGiftOp, handleCancelReserve] at hg
      rcases List.mem_map.mp hg with ⟨g1, hg1, rfl⟩
      by_cases hid : (g1.id == id) = true
      · simp [hid]
      · simp only [if_neg hid]
        exact h g1 hg1
  | add data img nowStr =>
      intro g hg
      simp only [applyGiftOp, onAddGift] at hg
      rcases List.mem_append.mp hg with h1 | h1
      · exact h g h1
      · simp only [List.mem_cons, List.not_mem_nil, or_false] at h1
        subst h1
        simp
  | remove id =>
      intro g hg
      simp only [applyGiftOp, handleRemoveGift] at hg
      exact h g (List.mem_filter.mp hg).1

theorem digits_filter_eq_self (l : List Char) :
    (l.filter Char.isDigit).filter Char.isDigit = l.filter Char.isDigit :=
  List.filter_eq_self.mpr (fun _ ha => List.of_mem_filter ha)

theorem filter_sub_digits {l m : List Char} (hsub : m ⊆ l.filter Char.isDigit) :
    m.filter Char.isDigit = m :=
  List.filter_eq_self.mpr (fun _ ha => List.of_mem_filter (hsub ha))

theorem filter_maskCore (l : List Char) :
    (maskCore l).filter Char.isDigit =
      if (l.filter Char.isDigit).length < 7 then l.filter Char.isDigit
      else (l.filter Char.isDigit).take 11 := by
  have hpar : Char.isDigit '(' = false := by decide
  have hpar2 : Char.isDigit ')' = false := by decide
  have hsp : Char.isDigit ' ' = false := by decide
  have hdash : Char.isDigit '-' = false := by decide
  by_cases h0 : l = []
  · subst h0
    simp [maskCore]
  · simp only [maskCore]
    rw [if_neg h0]
    by_cases h3 : (l.filter Char.isDigit).length < 3
    · rw [if_pos h3, if_pos (by omega)]
      exact digits_filter_eq_self l
    · rw [if_neg h3]
      by_cases h7 : (l.filter Char.isDigit).length < 7
      · rw [if_pos h7, if_pos h7]
        simp [List.filter_append, List.filter_cons, hpar, hpar2, hsp,
          filter_sub_digits (List.take_subset _ _),
          filter_sub_digits (List.drop_subset _ _), List.take_append_drop]
      · rw [if_neg h7, if_neg h7]
        have hsub5 : ((l.filter Char.isDigit).drop 2).take 5 ⊆ l.filter Char.isDigit :=
          (List.take_subset _ _).trans (List.drop_subset _ _)
        have hsub4 : ((l.filter Char.isDigit).drop 7).take 4 ⊆ l.filter Char.isDigit :=
          (List.take_subset _ _).trans (List.drop_subset _ _)
        simp only [List.filter_append, List.filter_cons, hpar, hpar2, hsp, hdash,
          Bool.false_eq_true, if_false,
          filter_sub_digits (List.take_subset 2 (l.filter Char.isDigit)),
          filter_sub_digits hsub5, filter_sub_digits hsub4]
        have h1 : (l.filter Char.isDigit).take 11 =
            (l.filter Char.isDigit).take 2 ++ ((l.filter Char.isDigit).drop 2).take 9 := by
          simpa using List.take_add (l.filter Char.isDigit) 2 9
        have h2 : ((l.filter Char.isDigit).drop 2).take 9 =
            ((l.filter Char.isDigit).drop 2).take 5 ++
              (((l.filter Char.isDigit).drop 2).drop 5).take 4 := by
          simpa using List.take_add ((l.filter Char.isDigit).drop 2) 5 4
        have h3' : ((l.filter Char.isDigit).drop 2).drop 5 = (l.filter Char.isDigit).drop 7 :=
          List.drop_drop 5 2 (l.filter Char.isDigit)
        rw [h1, h2, h3', List.append_assoc]

theorem maskCore_idem (l : List Char) : maskCore (maskCore l) = maskCore l := by
  by_cases h0 : l = []
  · subst h0; rfl
  by_cases h3 : (l.filter Char.isDigit).length < 3
  · have hml : maskCore l = l.filter Char.isDigit := by
      simp only [maskCore]
      rw [if_neg h0, if_pos h3]
    rw [hml]
    by_cases hnil : l.filter Char.isDigit = []
    · rw [hnil]; rfl
    · simp only [maskCore]
      rw [if_neg hnil, digits_filter_eq_self, if_pos h3]
  · by_cases h7 : (l.filter Char.isDigit).length < 7
    · have hml : maskCore l = '(' :: (l.filter Char.isDigit).take 2 ++
          ')' :: ' ' :: (l.filter Char.isDigit).drop 2 := by
        simp only [maskCore]
        rw [if_neg h0, if_neg h3, if_pos h7]
      have hfd : (maskCore l).filter Char.isDigit = l.filter Char.isDigit := by
        rw [filter_maskCore, if_pos h7]
      rw [hml] at hfd
      rw [hml]
      simp only [maskCore]
      rw [if_neg (by simp), hfd, if_neg h3, if_pos h7]
    · have hml : maskCore l = '(' :: (l.filter Char.isDigit).take 2 ++
          ')' :: ' ' :: ((l.filter Char.isDigit).drop 2).take 5 ++
          '-' :: ((l.filter Char.isDigit).drop 7).take 4 := by
        simp only [maskCore]
        rw [if_neg h0, if_neg h3, if_neg h7]
      have hfd : (maskCore l).filter Char.isDigit = (l.filter Char.isDigit).take 11 := by
        rw [filter_maskCore, if_neg h7]
      have hl3 : ¬ ((l.filter Char.isDigit).take 11).length < 3 := by
        rw [List.length_take]; omega
      have hl7 : ¬ ((l.filter Char.isDigit).take 11).length < 7 := by
        rw [List.length_take]; omega
      have e1 : ((l.filter Char.isDigit).take 11).take 2 = (l.filter Char.isDigit).take 2 := by
        simp [List.take_take]
      have e2 : (((l.filter Char.isDigit).take 11).drop 2).take 5 =
          ((l.filter Char.isDigit).drop 2).take 5 := by
        simp [List.drop_take, List.take_take]
      have e3 : (((l.filter Char.isDigit).take 11).drop 7).take 4 =
          ((l.filter Char.isDigit).drop 7).take 4 := by
        simp [List.drop_take, List.take_take]
      rw [hml] at hfd
      rw [hml]
      simp only [maskCore]
      rw [if_neg (by simp), hfd, if_neg hl3, if_neg hl7, e1, e2, e3]

theorem phoneRegex_of_parts (l2 l5 l4 : List Char)
    (h2 : l2.length = 2) (h5 : l5.length = 5) (h4 : l4.length = 4)
    (hd2 : ∀ c ∈ l2, Char.isDigit c = true)
    (hd5 : ∀ c ∈ l5, Char.isDigit c = true)
    (hd4 : ∀ c ∈ l4, Char.isDigit c = true) :
    phoneRegexTest (String.mk ('(' :: l2 ++ ')' :: ' ' :: l5 ++ '-' :: l4)) = true := by
  match l2, h2 with
  | [x1, x2], _ =>
    match l5, h5 with
    | [x3, x4, x5, x6, x7], _ =>
      match l4, h4 with
      | [x8, x9, x10, x11], _ =>
        have e1 := hd2 x1 (by simp)
        have e2 := hd2 x2 (by simp)
        have e3 := hd5 x3 (by simp)
        have e4 := hd5 x4 (by simp)
        have e5 := hd5 x5 (by simp)
        have e6 := hd5 x6 (by simp)
        have e7 := hd5 x7 (by simp)
        have e8 := hd4 x8 (by simp)
        have e9 := hd4 x9 (by simp)
        have e10 := hd4 x10 (by simp)
        have e11 := hd4 x11 (by simp)
        simp [phoneRegexTest, e1, e2, e3, e4, e5, e6, e7, e8, e9, e10, e11]

theorem giftInv_applyGiftOps (ops : List GiftOp) :
    ∀ gifts : List Gift,
      (∀ g ∈ gifts, g.isReserved = false ↔ g.reservedBy = none) →
      ∀ g ∈ applyGiftOps ops gifts, g.isReserved = false ↔ g.reservedBy = none := by
  induction ops with
  | nil => exact fun gifts h => h
  | cons op ops ih =>
      intro gifts h
      exact ih (applyGiftOp gifts op) (giftInv_applyGiftOp h op)

/-! ## Claim theorems -/

/-- C1, counterexample: from a catalog whose only item is already reserved
by Alice, a second `reserve` call by Bob mutates the catalog and overwrites
`reservedBy` to Bob's name — it does not report a conflict and does not
leave `reservedBy = guestA.name` as the claim states. -/
theorem c1_counterexample :
    handleReserve (some userB) "1" (handleReserve (some userA) "1" [sampleGift]) ≠
      handleReserve (some userA) "1" [sampleGift] ∧
    reservedByOf
      (handleReserve (some userB) "1" (handleReserve (some userA) "1" [sampleGift]))
      "1" = some "Bob" ∧
    some "Bob" ≠ some userA.name := by decide

/-- C1 (amended): `reserve` with no guest identity leaves the catalog
unchanged; with a guest identity present it never checks the current
reservation state, so a `reserve` call against an already-reserved item
reports no error and overwrites the holder — after `reserve(i, A)` then
`reserve(i, B)` the item `i` has `isReserved = true` and
`reservedBy = B.name`. -/
theorem c1_reserve_overwrites (gifts : List Gift) (i : String) (A B : User) :
    handleReserve none i gifts = gifts ∧
    (∀ g ∈ handleReserve (some B) i (handleReserve (some A) i gifts),
      g.id = i → g.isReserved = true ∧ g.reservedBy = some B.name) :=
  ⟨rfl, mem_handleReserve B i _⟩

/-- C1, witness: the amended theorem evaluated on the concrete
Alice-then-Bob double reservation of `sampleGift`. -/
theorem c1_witness :
    (sampleGiftB ∈
      handleReserve (some userB) "1" (handleReserve (some userA) "1" [sampleGift])) ∧
    sampleGiftB.isReserved = true ∧ sampleGiftB.reservedBy = some userB.name := by
  refine ⟨by decide, ?_⟩
  exact (c1_reserve_overwrites [sampleGift] "1" userA userB).2 sampleGiftB
    (by decide) (by decide)

/-- C4: the derived admin metrics are the specified aggregates — attendee,
adult and child totals are sums over the attending records and the decline
total counts the non-attending records — and they evaluate to 4, 3, 1, 1 on
the spec's three-record scenario. -/
theorem c4_aggregation :
    (∀ cs : List Presenca,
      totalPessoas cs = ((cs.filter (fun c => c.attending)).map Presenca.guestsCount).sum ∧
      totalAdultos cs = ((cs.filter (fun c => c.attending)).map Presenca.adultsCount).sum ∧
      totalCriancas cs = ((cs.filter (fun c => c.attending)).map Presenca.childrenCount).sum ∧
      totalNaoVao cs = (cs.filter (fun c => c.attending == false)).length) ∧
    totalPessoas exampleRecords = 4 ∧ totalAdultos exampleRecords = 3 ∧
    totalCriancas exampleRecords = 1 ∧ totalNaoVao exampleRecords = 1 := by
  refine ⟨fun cs => ⟨?_, ?_, ?_, ?_⟩, by decide, by decide, by decide, by decide⟩
  · simpa using foldl_if_sum Presenca.guestsCount cs 0
  · simpa using foldl_if_sum Presenca.adultsCount cs 0
  · simpa using foldl_if_sum Presenca.childrenCount cs 0
  · have hb : ∀ c : Presenca, (!c.attending) = (c.attending == false) :=
      fun c => by cases c.attending <;> rfl
    unfold totalNaoVao
    rw [List.filter_congr (fun c _ => hb c)]

/-- C5, counterexample: `presencaSchema` rejects submissions with
`attending = false` whose counts are out of range, contradicting the claim
that such a submission succeeds regardless of the supplied counts. -/
theorem c5_counterexample :
    presencaValidate { attending := false, adults := 0, children := 0 } = false ∧
    presencaValidate { attending := false, adults := 3, children := 11 } = false := by
  decide

/-- C5 (amended): `presencaSchema` validates `adults ∈ [1,10]` and
`children ∈ [0,10]` on every submission, regardless of the value of
`attending` (in particular `adults = 0` and `adults = 11` always fail);
the bounds are not relaxed when `attending` is false. -/
theorem c5_bounds_unconditional (d : PresencaForm) :
    (presencaValidate d = true ↔
      1 ≤ d.adults ∧ d.adults ≤ 10 ∧ 0 ≤ d.children ∧ d.children ≤ 10) ∧
    (∀ a : Bool, presencaValidate { d with attending := a } = presencaValidate d) := by
  constructor
  · simp [presencaValidate, and_assoc]
  · intro a; rfl

/-- C5, witness: the amended theorem evaluated on a concrete in-range
payload. -/
theorem c5_witness :
    1 ≤ (3 : Int) ∧ (3 : Int) ≤ 10 ∧ 0 ≤ (2 : Int) ∧ (2 : Int) ≤ 10 :=
  ((c5_bounds_unconditional { attending := true, adults := 3, children := 2 }).1).mp
    (by decide)

/-- C6: when the typed contact matches the phone mask and an attendance
record with that contact exists, the resolved identity carries the stored
record's name, not the supplied name. -/
theorem c6_identity_recognition (records : List Presenca)
    (suppliedName phone : String) (r : Presenca)
    (hmask : phoneRegexTest phone = true)
    (hfind : records.find? (fun x => x.phone == phone) = some r) :
    resolveIdentity records suppliedName phone =
      { name := r.name, phone := phone, isAdmin := false } := by
  simp [resolveIdentity, hmask, hfind]

/-- C6, witness: the spec's Maria Clara scenario — resubmitting the
recognized contact with the supplied name "Maria" resolves to the stored
name "Maria Clara". -/
theorem c6_witness :
    phoneRegexTest "(11) 91234-5678" = true ∧
    [mariaRecord].find? (fun x => x.phone == "(11) 91234-5678") = some mariaRecord ∧
    (resolveIdentity [mariaRecord] "Maria" "(11) 91234-5678").name = "Maria Clara" := by
  refine ⟨by decide, by decide, ?_⟩
  rw [c6_identity_recognition [mariaRecord] "Maria" "(11) 91234-5678" mariaRecord
    (by decide) (by decide)]
  rfl

/-- C7: `cancel` unconditionally clears `isReserved` and `reservedBy` of
the targeted item whoever holds it, and the round trip
`reserve(i, A); cancel(i); reserve(i, B)` leaves item `i` with
`isReserved = true` and `reservedBy = B.name`. -/
theorem c7_cancel_reserve_roundtrip (gifts : List Gift) (i : String) (A B : User) :
    (∀ g ∈ handleCancelReserve i gifts,
      g.id = i → g.isReserved = false ∧ g.reservedBy = none) ∧
    (∀ g ∈ handleReserve (some B) i
        (handleCancelReserve i (handleReserve (some A) i gifts)),
      g.id = i → g.isReserved = true ∧ g.reservedBy = some B.name) :=
  ⟨mem_handleCancelReserve i gifts, mem_handleReserve B i _⟩

/-- C7, witness: the round trip evaluated on the concrete one-item catalog
with guests Alice and Bob. -/
theorem c7_witness :
    (sampleGiftB ∈ handleReserve (some userB) "1"
      (handleCancelReserve "1" (handleReserve (some userA) "1" [sampleGift]))) ∧
    sampleGiftB.isReserved = true ∧ sampleGiftB.reservedBy = some userB.name := by
  refine ⟨by decide, ?_⟩
  exact (c7_cancel_reserve_roundtrip [sampleGift] "1" userA userB).2 sampleGiftB
    (by decide) (by decide)

/-- C8: cold-start hydration falls back to the built-in defaults exactly
when the stored key is absent — the 4-item seed catalog, the empty record
sequence, the default event configuration — and the admin capability is
granted only by the literal stored string "true". -/
theorem c8_hydration_defaults :
    hydrateGifts none = Except.ok (Json.arr (INITIAL_GIFTS.map giftToJson)) ∧
    INITIAL_GIFTS.length = 4 ∧
    hydratePresencas none = Except.ok (Json.arr []) ∧
    hydrateConfig none = Except.ok (configToJson DEFAULT_CONFIG) ∧
    hydrateAdmin none = false ∧
    ∀ s : String, s ≠ "true" → hydrateAdmin (some s) = false := by
  refine ⟨rfl, rfl, rfl, rfl, rfl, ?_⟩
  intro s hs
  simp [hydrateAdmin, hs]

/-- C8, witness: a stored admin marker other than "true" hydrates to
capability = false. -/
theorem c8_witness : hydrateAdmin (some "admin") = false :=
  c8_hydration_defaults.2.2.2.2.2 "admin" (by decide)

/-- C9: evaluating cold-start hydration at a stored string that is not
well-formed JSON: `JSON.parse` fails (the thrown `SyntaxError` propagates
out of the hydration effect) instead of falling back to the seed catalog. -/
theorem c9_parse_failure_crash :
    (∃ e, hydrateGifts (some "corrupted") = Except.error e) ∧
    hydrateGifts (some "corrupted") ≠
      Except.ok (Json.arr (INITIAL_GIFTS.map giftToJson)) := by
  have h : hydrateGifts (some "corrupted") =
      Except.error "Unexpected token in JSON" := by rfl
  rw [h]
  exact ⟨⟨_, rfl⟩, by simp⟩

/-- C2: starting from a record set uniquely keyed by phone, any sequence of
attendance submissions keeps it uniquely keyed, the result holds at most one
record per contact, that record equals the one built by the last submit for
the contact, and a single submit replaces an existing record in place at its
`findIndex` position while a new contact's record is appended. -/
theorem c2_attendance_upsert (cs : List Presenca) (h : UniqueKeyed cs)
    (ops : List SubmitOp) (c : String) :
    UniqueKeyed (applySubmits ops cs) ∧
    ((applySubmits ops cs).filter (fun r => r.phone == c)).length ≤ 1 ∧
    (∀ op, lastSubmitFor c ops = some op →
      (applySubmits ops cs).find? (fun r => r.phone == c) = some (mkPresenca op)) ∧
    (∀ (op : SubmitOp) (s : List Presenca), (∃ r ∈ s, r.phone = op.user.phone) →
      submitPresenca op s =
        s.set (s.findIdx (fun r => r.phone == op.user.phone)) (mkPresenca op)) ∧
    (∀ (op : SubmitOp) (s : List Presenca), (∀ r ∈ s, r.phone ≠ op.user.phone) →
      submitPresenca op s = s ++ [mkPresenca op]) := by
  have hunique := applySubmits_unique ops h
  refine ⟨hunique, uniqueKeyed_filter_le_one hunique c, ?_, ?_, ?_⟩
  · intro op hop
    rw [applySubmits_find? ops cs c, hop]
  · intro op s hex
    have hlt : s.findIdx (fun r => r.phone == op.user.phone) < s.length := by
      apply List.findIdx_lt_length_of_exists
      rcases hex with ⟨r, hr, hph⟩
      exact ⟨r, hr, beq_iff_eq.mpr hph⟩
    simp only [submitPresenca]
    rw [if_pos hlt]
  · intro op s hall
    have hlen : s.findIdx (fun r => r.phone == op.user.phone) = s.length := by
      rw [List.findIdx_eq_length]
      intro r hr
      exact beq_eq_false_iff_ne.mpr (hall r hr)
    simp only [submitPresenca]
    rw [if_neg (by rw [hlen]; exact Nat.lt_irrefl _)]

/-- C2, witness: the theorem evaluated on the empty initial record set and
the Alice-Bob-Alice submission sequence, at Alice's contact. -/
theorem c2_witness :
    UniqueKeyed ([] : List Presenca) ∧
    ((applySubmits c2ops []).filter (fun r => r.phone == "(11) 91111-1111")).length ≤ 1 :=
  ⟨by decide, (c2_attendance_upsert [] (by decide) c2ops "(11) 91111-1111").2.1⟩

/-- C3: every item of every catalog reachable from the seed catalog by
reserve/cancel/add/remove operations satisfies `isReserved = false` iff
`reservedBy` is absent. -/
theorem c3_reservation_invariant (ops : List GiftOp) :
    ∀ g ∈ applyGiftOps ops INITIAL_GIFTS,
      g.isReserved = false ↔ g.reservedBy = none :=
  giftInv_applyGiftOps ops INITIAL_GIFTS (by decide)

/-- C3, witness: the invariant instantiated on the concrete operation
sequence `opsC3` at the final, reserved, admin-added item. -/
theorem c3_witness :
    (addedGiftB ∈ applyGiftOps opsC3 INITIAL_GIFTS) ∧
    (addedGiftB.isReserved = false ↔ addedGiftB.reservedBy = none) :=
  ⟨by decide, c3_reservation_invariant opsC3 addedGiftB (by decide)⟩

/-- C10: `maskPhone` is idempotent on every input string, its output never
contains more than 11 digits, and as soon as the input supplies 11 digits
the output is exactly the fixed display mask `(dd) ddddd-dddd`. -/
theorem c10_mask_idempotent (s : String) :
    maskPhone (maskPhone s) = maskPhone s ∧
    ((maskPhone s).data.filter Char.isDigit).length ≤ 11 ∧
    (11 ≤ (s.data.filter Char.isDigit).length →
      phoneRegexTest (maskPhone s) = true) := by
  refine ⟨congrArg String.mk (maskCore_idem s.data), ?_, ?_⟩
  · show ((maskCore s.data).filter Char.isDigit).length ≤ 11
    rw [filter_maskCore]
    by_cases h7 : (s.data.filter Char.isDigit).length < 7
    · rw [if_pos h7]; omega
    · rw [if_neg h7, List.length_take]; omega
  · intro hlen
    have h0 : s.data ≠ [] := by
      intro h
      rw [h] at hlen
      simp at hlen
    have h3 : ¬ (s.data.filter Char.isDigit).length < 3 := by omega
    have h7 : ¬ (s.data.filter Char.isDigit).length < 7 := by omega
    have hml : maskCore s.data = '(' :: (s.data.filter Char.isDigit).take 2 ++
        ')' :: ' ' :: ((s.data.filter Char.isDigit).drop 2).take 5 ++
        '-' :: ((s.data.filter Char.isDigit).drop 7).take 4 := by
      simp only [maskCore]
      rw [if_neg h0, if_neg h3, if_neg h7]
    show phoneRegexTest (String.mk (maskCore s.data)) = true
    rw [hml]
    refine phoneRegex_of_parts _ _ _ ?_ ?_ ?_ ?_ ?_ ?_
    · rw [List.length_take]; omega
    · rw [List.length_take, List.length_drop]; omega
    · rw [List.length_take, List.length_drop]; omega
    · exact fun c hc => List.of_mem_filter (List.take_subset _ _ hc)
    · exact fun c hc =>
        List.of_mem_filter (List.drop_subset _ _ (List.take_subset _ _ hc))
    · exact fun c hc =>
        List.of_mem_filter (List.drop_subset _ _ (List.take_subset _ _ hc))

/-- C10, witness: the theorem evaluated on a 12-digit noisy input, whose
mask is a complete `(dd) ddddd-dddd` phone string. -/
theorem c10_witness :
    11 ≤ (("a119876543210" : String).data.filter Char.isDigit).length ∧
    phoneRegexTest (maskPhone "a119876543210") = true :=
  ⟨by decide, (c10_mask_idempotent "a119876543210").2.2 (by decide)⟩

end Housewarming
